import Mathlib

/-!
Verification of the Lunar Lander web app core (craft integration step,
terrain generation and sampling, touchdown judgment, and the result
validation endpoint) against its natural-language specification.

Numbers are modelled as rationals (ℚ): every numeric literal and every
arithmetic operation of the source is exactly representable, and the
rational embedding has no non-finite values, so the `isFinite` guards of
the source are identically true here and fold away.
-/

/-- Configuration constants from `CONFIG` in `game.js`. -/
def CONFIG_gravity : ℚ := 162/100

/-- `CONFIG.mainThrust` in `game.js`. -/
def CONFIG_mainThrust : ℚ := 6

/-- `CONFIG.sideThrust` in `game.js`. -/
def CONFIG_sideThrust : ℚ := 3

/-- `CONFIG.maxRange` in `game.js`. -/
def CONFIG_maxRange : ℚ := 100

/-- `LANDER_CONFIG.maxAltitude` in `lander.js` (also `CONFIG.maxAltitude`). -/
def LANDER_CONFIG_maxAltitude : ℚ := 100

/-- `CONFIG.baseFuel` in `game.js`. -/
def CONFIG_baseFuel : ℚ := 1000

/-- `CONFIG.fuelDecrease` in `game.js`. -/
def CONFIG_fuelDecrease : ℚ := 200

/-- `CONFIG.gravityIncrement` in `game.js`. -/
def CONFIG_gravityIncrement : ℚ := 3/10

/-- Craft state: the fields of the `Lander` class in `lander.js`
(mass-aware, three-thruster variant). -/
structure Lander where
  maxRange : ℚ
  dryMass : ℚ
  fullMass : ℚ
  mass : ℚ
  altitude : ℚ
  verticalVelocity : ℚ
  horizontalPosition : ℚ
  horizontalVelocity : ℚ
  fuel : ℚ
  upThruster : Bool
  leftThruster : Bool
  rightThruster : Bool
  anomaly : Bool
  deriving Repr, DecidableEq

/-- `Lander.prototype.reset(startFuel)` from `lander.js`. -/
def Lander.reset (l : Lander) (startFuel : ℚ) : Lander :=
  { l with
    altitude := LANDER_CONFIG_maxAltitude
    verticalVelocity := 0
    horizontalPosition := l.maxRange / 2
    horizontalVelocity := 0
    fuel := startFuel
    mass := l.dryMass + startFuel
    fullMass := l.dryMass + startFuel
    upThruster := false
    leftThruster := false
    rightThruster := false
    anomaly := false }

/-- Whether the up thruster contributes this step: the source guard
`this.upThruster && this.fuel > 0`. -/
def Lander.upActive (l : Lander) : Bool :=
  l.upThruster && decide (0 < l.fuel)

/-- The source guard `this.leftThruster && this.fuel > 0`. -/
def Lander.leftActive (l : Lander) : Bool :=
  l.leftThruster && decide (0 < l.fuel)

/-- The source guard `this.rightThruster && this.fuel > 0`. -/
def Lander.rightActive (l : Lander) : Bool :=
  l.rightThruster && decide (0 < l.fuel)

/-- The `thrusters` counter accumulated in `Lander.prototype.update`. -/
def Lander.thrusterCount (l : Lander) : ℕ :=
  (if l.upActive then 1 else 0) +
  (if l.leftActive then 1 else 0) +
  (if l.rightActive then 1 else 0)

/-- Number of thruster flags that are set (regardless of fuel); used to
phrase specification statements about "active thrusters". -/
def Lander.flagCount (l : Lander) : ℕ :=
  (if l.upThruster then 1 else 0) +
  (if l.leftThruster then 1 else 0) +
  (if l.rightThruster then 1 else 0)

/-- Vertical acceleration computed at the top of `Lander.prototype.update`:
gravity minus the main thrust scaled by `fullMass / mass` when the up
thruster fires with fuel available. -/
def Lander.accelY (l : Lander) (gravity mainThrust : ℚ) : ℚ :=
  gravity - (if l.upActive then mainThrust * (l.fullMass / l.mass) else 0)

/-- Horizontal acceleration from the side thrusters, each scaled by
`fullMass / mass`, as in `Lander.prototype.update`. -/
def Lander.accelX (l : Lander) (sideThrust : ℚ) : ℚ :=
  (if l.leftActive then -(sideThrust * (l.fullMass / l.mass)) else 0) +
  (if l.rightActive then sideThrust * (l.fullMass / l.mass) else 0)

/-- Vertical velocity after the integration line
`this.verticalVelocity += accelY * dt`. -/
def Lander.newVV (l : Lander) (dt gravity mainThrust : ℚ) : ℚ :=
  l.verticalVelocity + l.accelY gravity mainThrust * dt

/-- Horizontal velocity after `this.horizontalVelocity += accelX * dt`. -/
def Lander.newHV (l : Lander) (dt sideThrust : ℚ) : ℚ :=
  l.horizontalVelocity + l.accelX sideThrust * dt

/-- Horizontal position after
`this.horizontalPosition += this.horizontalVelocity * dt`, before the
boundary clamp. -/
def Lander.rawHPos (l : Lander) (dt sideThrust : ℚ) : ℚ :=
  l.horizontalPosition + l.newHV dt sideThrust * dt

/-- Altitude after `this.altitude -= this.verticalVelocity * dt`, before
the anomaly clamp. -/
def Lander.rawAlt (l : Lander) (dt gravity mainThrust : ℚ) : ℚ :=
  l.altitude - l.newVV dt gravity mainThrust * dt

/-- `Lander.prototype.update(dt, gravity, mainThrust, sideThrust)` from
`lander.js`, transcribed step for step: thrust accelerations (mass-scaled),
fuel consumption with flag cutoff, semi-implicit Euler integration,
horizontal clamp with velocity zeroing, and the final anomaly check.  In
the rational embedding the `isFinite` tests of the source are always true,
so the anomaly trigger reduces to the range tests. -/
def Lander.update (l : Lander) (dt gravity mainThrust sideThrust : ℚ) : Lander :=
  let consuming : Prop := 0 < l.thrusterCount ∧ 0 < l.fuel
  let fuel' := if consuming then max (l.fuel - (l.thrusterCount : ℚ) * dt) 0 else l.fuel
  let mass' := if consuming then l.dryMass + fuel' else l.mass
  let cut : Prop := consuming ∧ fuel' ≤ 0
  let up' := if cut then false else l.upThruster
  let left' := if cut then false else l.leftThruster
  let right' := if cut then false else l.rightThruster
  let vv := l.newVV dt gravity mainThrust
  let hv := l.newHV dt sideThrust
  let alt := l.rawAlt dt gravity mainThrust
  let hp := l.rawHPos dt sideThrust
  let hp2 := if hp < 0 then 0 else if l.maxRange < hp then l.maxRange else hp
  let hv2 := if hp < 0 then 0 else if l.maxRange < hp then 0 else hv
  let trig : Prop := alt < 0 ∨ LANDER_CONFIG_maxAltitude < alt ∨ 1000 < |vv|
  let alt2 := if trig then min (max alt 0) LANDER_CONFIG_maxAltitude else alt
  let vv2 := if trig ∧ 1000 < |vv| then 0 else vv
  let anomaly' := if trig then true else l.anomaly
  { l with
    fuel := fuel'
    mass := mass'
    upThruster := up'
    leftThruster := left'
    rightThruster := right'
    verticalVelocity := vv2
    horizontalVelocity := hv2
    altitude := alt2
    horizontalPosition := hp2
    anomaly := anomaly' }

example :
    ((Lander.mk 100 1000 1010 1010 100 0 50 0 10 true false false false).update
      1 0 1 0).fuel = 9 := by
  norm_num [Lander.update, Lander.thrusterCount, Lander.upActive, Lander.leftActive,
    Lander.rightActive, Lander.newVV, Lander.newHV, Lander.rawHPos, Lander.accelY,
    Lander.accelX, LANDER_CONFIG_maxAltitude, max_def, min_def]

/-- The safe-zone record `{startRange, endRange, height}` built by
`Game.generateTerrain` in `game.js`. -/
structure SafeZone where
  startRange : ℚ
  endRange : ℚ
  height : ℚ
  deriving Repr, DecidableEq

/-- The eleven raw height samples `Math.random() * 0.3 + 0.1` pushed by
`generateTerrain` before the safe segment is flattened. -/
def origHeights (heightDraws : Fin 11 → ℚ) : List ℚ :=
  List.ofFn (fun i : Fin 11 => heightDraws i * (3/10) + 1/10)

/-- The safe index `Math.floor(safeDraw * (numPoints - 2)) + 1` chosen by
`generateTerrain` (`numPoints = 10`); the draw lies in `[0, 1)`, so the
sum is positive and the conversion to ℕ is faithful. -/
def safeIndexOf (safeDraw : ℚ) : ℕ :=
  (⌊safeDraw * ((10 : ℚ) - 2)⌋ + 1).toNat

/-- `Game.prototype.generateTerrain` from `game.js`, with the eleven
`Math.random()` draws for the heights and the one draw for the safe index
passed in explicitly (each draw lies in `[0, 1)`): eleven samples
`r * 0.3 + 0.1`, a safe index `Math.floor(r * (numPoints - 2)) + 1`, both
endpoint samples of that segment overwritten with
`Math.min(pts[safeIndex], pts[safeIndex + 1], 0.2)`, and the safe-zone
extent emitted in physical range units. -/
def generateTerrain (heightDraws : Fin 11 → ℚ) (safeDraw : ℚ) : List ℚ × SafeZone :=
  let numPoints : ℕ := 10
  let pts0 : List ℚ := origHeights heightDraws
  let safeIndex : ℕ := safeIndexOf safeDraw
  let segmentRange : ℚ := CONFIG_maxRange / (numPoints : ℚ)
  let flatHeight : ℚ := min (min (pts0.getD safeIndex 0) (pts0.getD (safeIndex + 1) 0)) (2/10)
  let pts : List ℚ := (pts0.set safeIndex flatHeight).set (safeIndex + 1) flatHeight
  (pts,
    { startRange := (safeIndex : ℚ) * segmentRange
      endRange := ((safeIndex : ℚ) + 1) * segmentRange
      height := flatHeight })

/-- `Game.prototype.getTerrainYPixel(xPix)` from `game.js`, as a function of
the terrain point list and the canvas width/height: empty terrain returns the
sentinel `canvas.height`; otherwise the segment index is
`Math.min(Math.floor(x / segmentWidth), numSegments - 1)` and the result
linearly interpolates that segment's endpoint heights into an inverted pixel
Y.  (For an index JS would take out of the array — possible only for a
single-sample list, which no caller produces — `getD` supplies 0 where JS
propagates NaN; every theorem below works on lists of at least two samples,
where each index is proved in range and the default is unreachable.) -/
def getTerrainYPixel (pts : List ℚ) (w h x : ℚ) : ℚ :=
  if pts.length = 0 then h
  else
    let numSegments : ℤ := (pts.length : ℤ) - 1
    let segmentWidth : ℚ := w / (numSegments : ℚ)
    let i : ℤ := min ⌊x / segmentWidth⌋ (numSegments - 1)
    let t : ℚ := (x - (i : ℚ) * segmentWidth) / segmentWidth
    let h0 := pts.getD i.toNat 0
    let h1 := pts.getD (i.toNat + 1) 0
    let heightNorm := h0 * (1 - t) + h1 * t
    h - heightNorm * h

/-- The segment width `canvas.width / numSegments` used by
`getTerrainYPixel` on non-empty terrain. -/
def segWidthOf (pts : List ℚ) (w : ℚ) : ℚ :=
  w / (((pts.length : ℤ) - 1 : ℤ) : ℚ)

/-- The clamped segment index used by `getTerrainYPixel` on non-empty
terrain (`numSegments - 1 = pts.length - 2`). -/
def segIndexOf (pts : List ℚ) (w x : ℚ) : ℤ :=
  min ⌊x / segWidthOf pts w⌋ ((pts.length : ℤ) - 2)

/-- The local interpolation offset `t` used by `getTerrainYPixel` on
non-empty terrain. -/
def segTOf (pts : List ℚ) (w x : ℚ) : ℚ :=
  (x - (segIndexOf pts w x : ℚ) * segWidthOf pts w) / segWidthOf pts w

/-- Game controller state: the simulation-relevant fields of the `Game`
class in `game.js` (DOM, canvas context and audio handles are external
collaborators; the canvas pixel dimensions are kept as data). -/
structure Game where
  level : ℕ
  currentGravity : ℚ
  gameOver : Bool
  message : String
  gameStarted : Bool
  crashed : Bool
  terrainPoints : List ℚ
  safeZone : SafeZone
  canvasWidth : ℚ
  canvasHeight : ℚ
  lander : Lander
  deriving Repr

/-- The lander after the `this.lander.update(dt, this.currentGravity,
CONFIG.mainThrust, CONFIG.sideThrust)` call inside `updatePhysics`. -/
def Game.postLander (g : Game) (dt : ℚ) : Lander :=
  g.lander.update dt g.currentGravity CONFIG_mainThrust CONFIG_sideThrust

/-- `xPix` as computed in `updatePhysics`. -/
def Game.xPix (g : Game) (dt : ℚ) : ℚ :=
  (g.postLander dt).horizontalPosition / CONFIG_maxRange * g.canvasWidth

/-- `yPix` as computed in `updatePhysics`. -/
def Game.yPix (g : Game) (dt : ℚ) : ℚ :=
  g.canvasHeight - (g.postLander dt).altitude / LANDER_CONFIG_maxAltitude * g.canvasHeight

/-- `terrainY` as computed in `updatePhysics`. -/
def Game.terrainYAt (g : Game) (dt : ℚ) : ℚ :=
  getTerrainYPixel g.terrainPoints g.canvasWidth g.canvasHeight (g.xPix dt)

/-- The touchdown test `yPix >= terrainY` of `updatePhysics`: the craft's
pixel Y at or past the sampled terrain Y. -/
def Game.touchdown (g : Game) (dt : ℚ) : Prop :=
  g.terrainYAt dt ≤ g.yPix dt

instance (g : Game) (dt : ℚ) : Decidable (g.touchdown dt) :=
  inferInstanceAs (Decidable (_ ≤ _))

/-- `Game.prototype.updatePhysics(dt)` from `game.js`, transcribed without
its drawing/UI/audio side effects: guard on `gameStarted`/`gameOver`,
advance the lander, test the pixel position against the sampled terrain,
and on touchdown capture the impact velocities, snap the altitude to the
surface, zero both velocities, end the attempt and classify the outcome
(advancing the level only on success). -/
def Game.updatePhysics (g : Game) (dt : ℚ) : Game :=
  if g.gameStarted = false ∨ g.gameOver = true then g
  else
    let l := g.postLander dt
    if g.touchdown dt then
      let impactVertical := l.verticalVelocity
      let impactHorizontal := l.horizontalVelocity
      let surfaceAltitude :=
        (g.canvasHeight - g.terrainYAt dt) / g.canvasHeight * LANDER_CONFIG_maxAltitude
      let l2 := { l with
        altitude := surfaceAltitude
        verticalVelocity := 0
        horizontalVelocity := 0 }
      let safeVertical : Prop := |impactVertical| ≤ 2
      let safeHorizontal : Prop := |impactHorizontal| ≤ 2
      let safePosition : Prop :=
        g.safeZone.startRange ≤ l2.horizontalPosition ∧
        l2.horizontalPosition ≤ g.safeZone.endRange
      if safeVertical ∧ safeHorizontal ∧ safePosition then
        { g with
          lander := l2
          gameOver := true
          message := "Successful landing!"
          level := g.level + 1
          crashed := false }
      else
        { g with
          lander := l2
          gameOver := true
          message := "Crash!"
          crashed := true }
    else
      { g with lander := l }

/-- A JavaScript runtime number: NaN, the two infinities, or a finite value
(modelled as an exact rational). -/
inductive JSNum where
  | nan
  | inf
  | negInf
  | fin (q : ℚ)
  deriving Repr, DecidableEq

/-- `isFinite` on a JS number. -/
def JSNum.isFinite : JSNum → Bool
  | fin _ => true
  | _ => false

/-- The JS `<` comparison on numbers (every comparison with NaN is false). -/
def JSNum.lt : JSNum → JSNum → Bool
  | nan, _ => false
  | inf, nan => false
  | negInf, nan => false
  | fin _, nan => false
  | negInf, negInf => false
  | negInf, inf => true
  | negInf, fin _ => true
  | inf, inf => false
  | inf, negInf => false
  | inf, fin _ => false
  | fin _, inf => true
  | fin _, negInf => false
  | fin a, fin b => decide (a < b)

/-- `Math.abs` on a JS number. -/
def JSNum.jsAbs : JSNum → JSNum
  | nan => nan
  | inf => inf
  | negInf => inf
  | fin q => fin |q|

/-- The property "this JS number is finite and lies in `[lo, hi]`", used to
phrase the specification's range conditions. -/
def JSNum.finiteIn (a : JSNum) (lo hi : ℚ) : Prop :=
  ∃ q : ℚ, a = JSNum.fin q ∧ lo ≤ q ∧ q ≤ hi

/-- A JSON field value as the validator's `typeof` checks see it: a number,
or anything of another runtime type. -/
inductive JSVal where
  | num (n : JSNum)
  | nonNumber
  deriving Repr, DecidableEq

/-- The `result` object of the request body. -/
structure ResultObj where
  altitude : JSVal
  verticalVelocity : JSVal
  deriving Repr, DecidableEq

/-- The parsed request body `{ result, token }`; a missing field is
`none`. -/
structure ValidateBody where
  result : Option ResultObj
  token : Option String
  deriving Repr, DecidableEq

/-- An HTTP response of the validation endpoint: status code, the `ok`
field, and the `reason` field when present. -/
structure ServerResponse where
  status : ℕ
  ok : Bool
  reason : Option String
  deriving Repr, DecidableEq

/-- The `POST /validate` handler from `server.js`.  The HMAC-SHA256
signature `signParams(GAME_PARAMS)` is computed by Node's crypto library,
external to the core; it is abstracted as the parameter `expected`, and the
handler compares the submitted token against it by string equality exactly
as `token !== expected` does.  The checks run in source order: token, then
result shape (`!result || typeof result.altitude !== 'number' || typeof
result.verticalVelocity !== 'number'`), then altitude range, then velocity
range. -/
def validateHandler (expected : String) (body : ValidateBody) : ServerResponse :=
  if body.token ≠ some expected then
    { status := 400, ok := false, reason := some "invalid token" }
  else
    match body.result with
    | none => { status := 400, ok := false, reason := some "malformed result" }
    | some r =>
      match r.altitude, r.verticalVelocity with
      | JSVal.num a, JSVal.num v =>
        if a.lt (JSNum.fin 0) || (JSNum.fin LANDER_CONFIG_maxAltitude).lt a || !a.isFinite then
          { status := 400, ok := false, reason := some "invalid altitude" }
        else if !v.isFinite || (JSNum.fin 50).lt v.jsAbs then
          { status := 400, ok := false, reason := some "invalid velocity" }
        else
          { status := 200, ok := true, reason := none }
      | _, _ => { status := 400, ok := false, reason := some "malformed result" }

/-! ## Supporting lemmas -/

lemma Lander.thrusterCount_eq_flagCount (l : Lander) (h : 0 < l.fuel) :
    l.thrusterCount = l.flagCount := by
  simp [Lander.thrusterCount, Lander.flagCount, Lander.upActive, Lander.leftActive,
    Lander.rightActive, h]

lemma Lander.flagCount_pos (l : Lander)
    (hflag : l.upThruster = true ∨ l.leftThruster = true ∨ l.rightThruster = true) :
    0 < l.flagCount := by
  rcases hflag with h | h | h <;> simp [Lander.flagCount, h]

lemma Lander.update_verticalVelocity_of_bounded (l : Lander)
    (dt gravity mainThrust sideThrust : ℚ)
    (h : |l.newVV dt gravity mainThrust| ≤ 1000) :
    (l.update dt gravity mainThrust sideThrust).verticalVelocity =
      l.newVV dt gravity mainThrust := by
  have h' : ¬ (1000 : ℚ) < |l.newVV dt gravity mainThrust| := not_lt.mpr h
  simp [Lander.update, h']

/-! ## Claims -/

/-- C2: for every `Lander.update(dt, gravity, mainThrust, sideThrust)` call
with `dt ≥ 0` in which at least one thruster flag is set and `fuel > 0`,
the fuel afterwards is exactly `max(fuel − flagCount · dt, 0)`, hence never
negative (and an update from any nonnegative fuel level keeps fuel
nonnegative); if the debit drives fuel to 0, all three thruster flags are
false when the same call returns; and the thrust acceleration already
applied is not retroactively removed: the new vertical velocity is still
the one integrated with the pre-call thruster flags (stated away from the
anomaly clamp, which would otherwise zero a velocity beyond the 1000
sanity bound). -/
theorem C2_fuel_debit (l : Lander) (dt gravity mainThrust sideThrust : ℚ)
    (_hdt : 0 ≤ dt)
    (hflag : l.upThruster = true ∨ l.leftThruster = true ∨ l.rightThruster = true)
    (hfuel : 0 < l.fuel) :
    (l.update dt gravity mainThrust sideThrust).fuel =
      max (l.fuel - (l.flagCount : ℚ) * dt) 0 ∧
    0 ≤ (l.update dt gravity mainThrust sideThrust).fuel ∧
    ((l.update dt gravity mainThrust sideThrust).fuel = 0 →
      (l.update dt gravity mainThrust sideThrust).upThruster = false ∧
      (l.update dt gravity mainThrust sideThrust).leftThruster = false ∧
      (l.update dt gravity mainThrust sideThrust).rightThruster = false) ∧
    (∀ m : Lander, 0 ≤ m.fuel → 0 ≤ (m.update dt gravity mainThrust sideThrust).fuel) ∧
    (|l.newVV dt gravity mainThrust| ≤ 1000 →
      (l.update dt gravity mainThrust sideThrust).verticalVelocity =
        l.verticalVelocity + l.accelY gravity mainThrust * dt) := by
  have hcnt : 0 < l.thrusterCount := by
    rw [Lander.thrusterCount_eq_flagCount l hfuel]
    exact Lander.flagCount_pos l hflag
  have hflagcnt := Lander.thrusterCount_eq_flagCount l hfuel
  have hfc : 0 < l.flagCount := Lander.flagCount_pos l hflag
  refine ⟨?_, ?_, ?_, ?_, ?_⟩
  · simp [Lander.update, hcnt, hfuel, hflagcnt, hcnt.ne', hfc.ne']
  · simp [Lander.update, hcnt, hfuel, hcnt.ne']
  · intro h0
    have h0' : max (l.fuel - (l.thrusterCount : ℚ) * dt) 0 = 0 := by
      simpa [Lander.update, hcnt, hfuel, hcnt.ne'] using h0
    refine ⟨?_, ?_, ?_⟩ <;> simp [Lander.update, hcnt, hfuel, hcnt.ne', h0']
  · intro m hm
    simp only [Lander.update]
    split_ifs <;> simp [hm, le_max_right]
  · intro hb
    rw [Lander.update_verticalVelocity_of_bounded l dt gravity mainThrust sideThrust hb,
      Lander.newVV]

/-- Witness for C2 at a concrete input: a craft with 10 fuel and the up
thruster held, updated for one second, is left with exactly 9 fuel. -/
theorem C2_fuel_debit_witness :
    ((Lander.mk 100 1000 1010 1010 100 0 50 0 10 true false false false).update
      1 0 1 0).fuel = 9 := by
  have h := (C2_fuel_debit
    (Lander.mk 100 1000 1010 1010 100 0 50 0 10 true false false false)
    1 0 1 0 (by norm_num) (Or.inl rfl) (by norm_num)).1
  rw [h]
  norm_num [Lander.flagCount, max_def]

/-- C3 fails as stated: a craft at horizontal position 1 moving left at 10
units/s with an empty tank integrates to position exactly 0 in a 0.1 s
tick; the clamp branch (`< 0`) does not fire, so the craft sits on the
boundary with horizontal velocity −10, not 0. -/
theorem C3_boundary_counterexample :
    ((Lander.mk 100 1000 1000 1000 50 0 1 (-10) 0 false false false false).update
      (1/10) (162/100) 6 3).horizontalPosition = 0 ∧
    ((Lander.mk 100 1000 1000 1000 50 0 1 (-10) 0 false false false false).update
      (1/10) (162/100) 6 3).horizontalVelocity ≠ 0 := by
  norm_num [Lander.update, Lander.thrusterCount, Lander.upActive, Lander.leftActive,
    Lander.rightActive, Lander.newVV, Lander.newHV, Lander.rawHPos, Lander.rawAlt,
    Lander.accelY, Lander.accelX, LANDER_CONFIG_maxAltitude, max_def, min_def]

/-- C3 amended: after every `Lander.update` call (with a nonnegative
configured range), `horizontalPosition` lies within `[0, maxRange]`, and
`horizontalVelocity` is exactly 0 whenever the boundary clamp fired, i.e.
whenever the raw integrated position fell strictly outside the range; a
tick whose integration lands exactly on a boundary keeps its velocity. -/
theorem C3_clamp_amended (l : Lander) (dt gravity mainThrust sideThrust : ℚ)
    (hR : 0 ≤ l.maxRange) :
    (0 ≤ (l.update dt gravity mainThrust sideThrust).horizontalPosition ∧
      (l.update dt gravity mainThrust sideThrust).horizontalPosition ≤ l.maxRange) ∧
    (l.rawHPos dt sideThrust < 0 ∨ l.maxRange < l.rawHPos dt sideThrust →
      (l.update dt gravity mainThrust sideThrust).horizontalVelocity = 0) := by
  constructor
  · simp only [Lander.update]
    split_ifs with h1 h2 <;>
      constructor <;> first
        | exact le_refl _
        | exact hR
        | exact le_of_not_lt h1
        | exact le_of_not_lt h2
  · intro hout
    simp only [Lander.update]
    rcases hout with h | h
    · simp [h]
    · have h' : ¬ l.rawHPos dt sideThrust < 0 := not_lt.mpr (hR.trans h.le)
      simp [h, h']

/-- Witness for C3's amended claim at a concrete input: a craft at
position 1 moving left at 20 units/s integrates to raw position −1, so the
clamp fires, and after the tick the position is within `[0, 100]` and the
horizontal velocity is exactly 0. -/
theorem C3_clamp_amended_witness :
    (0 ≤ ((Lander.mk 100 1000 1000 1000 50 0 1 (-20) 0 false false false false).update
        (1/10) (162/100) 6 3).horizontalPosition ∧
      ((Lander.mk 100 1000 1000 1000 50 0 1 (-20) 0 false false false false).update
        (1/10) (162/100) 6 3).horizontalPosition ≤ 100) ∧
    ((Lander.mk 100 1000 1000 1000 50 0 1 (-20) 0 false false false false).update
      (1/10) (162/100) 6 3).horizontalVelocity = 0 := by
  have h := C3_clamp_amended
    (Lander.mk 100 1000 1000 1000 50 0 1 (-20) 0 false false false false)
    (1/10) (162/100) 6 3 (by norm_num)
  exact ⟨h.1, h.2 (Or.inl (by
    norm_num [Lander.rawHPos, Lander.newHV, Lander.accelX, Lander.leftActive,
      Lander.rightActive]))⟩

/-- C8: after every `Lander.update` call the altitude lies within
`[0, maxAltitude]` and the vertical velocity has absolute value at most
1000 (in the rational embedding every value is finite, so the source's
`isFinite` guards hold identically); the anomaly flag is sticky; and
whenever the integration step left the altitude outside `[0, maxAltitude]`
or drove `|verticalVelocity|` beyond 1000, this update sets the anomaly
flag, clamps the altitude into range, and zeroes an out-of-bound vertical
velocity.  `Lander.update` is a total function, so no exception can be
raised. -/
theorem C8_anomaly_clamp (l : Lander) (dt gravity mainThrust sideThrust : ℚ) :
    (0 ≤ (l.update dt gravity mainThrust sideThrust).altitude ∧
      (l.update dt gravity mainThrust sideThrust).altitude ≤ LANDER_CONFIG_maxAltitude) ∧
    |(l.update dt gravity mainThrust sideThrust).verticalVelocity| ≤ 1000 ∧
    (l.anomaly = true → (l.update dt gravity mainThrust sideThrust).anomaly = true) ∧
    (l.rawAlt dt gravity mainThrust < 0 ∨
        LANDER_CONFIG_maxAltitude < l.rawAlt dt gravity mainThrust ∨
        1000 < |l.newVV dt gravity mainThrust| →
      (l.update dt gravity mainThrust sideThrust).anomaly = true ∧
      (l.update dt gravity mainThrust sideThrust).altitude =
        min (max (l.rawAlt dt gravity mainThrust) 0) LANDER_CONFIG_maxAltitude ∧
      (1000 < |l.newVV dt gravity mainThrust| →
        (l.update dt gravity mainThrust sideThrust).verticalVelocity = 0)) := by
  have hmax : (0:ℚ) ≤ LANDER_CONFIG_maxAltitude := by norm_num [LANDER_CONFIG_maxAltitude]
  refine ⟨?_, ?_, ?_, ?_⟩
  · simp only [Lander.update]
    split_ifs with htrig
    · exact ⟨le_min (le_max_right _ _) hmax, min_le_right _ _⟩
    · push_neg at htrig
      exact ⟨htrig.1, htrig.2.1⟩
  · simp only [Lander.update]
    split_ifs with htrig
    · norm_num
    · by_cases hv : 1000 < |l.newVV dt gravity mainThrust|
      · exact absurd ⟨Or.inr (Or.inr hv), hv⟩ htrig
      · exact not_lt.mp hv
  · intro h
    simp only [Lander.update]
    split_ifs <;> simp [h]
  · intro htrig
    refine ⟨?_, ?_, ?_⟩
    · simp [Lander.update, htrig]
    · simp [Lander.update, htrig]
    · intro hv
      simp [Lander.update, htrig, hv]

/-- Witness for C8 at a concrete input: a craft whose vertical velocity is
2000 units/s trips the anomaly check in a 0-length tick; the flag is set,
the velocity is zeroed and the altitude stays in `[0, 100]`. -/
theorem C8_anomaly_clamp_witness :
    ((Lander.mk 100 1000 1000 1000 50 2000 50 0 0 false false false false).update
      0 (162/100) 6 3).anomaly = true ∧
    ((Lander.mk 100 1000 1000 1000 50 2000 50 0 0 false false false false).update
      0 (162/100) 6 3).verticalVelocity = 0 ∧
    (((Lander.mk 100 1000 1000 1000 50 2000 50 0 0 false false false false).update
        0 (162/100) 6 3).altitude ≤ LANDER_CONFIG_maxAltitude ∧
      ((Lander.mk 100 1000 1000 1000 50 2000 50 0 0 false false false false).update
        0 (162/100) 6 3).anomaly = true) := by
  have hb : (1000:ℚ) <
      |(Lander.mk 100 1000 1000 1000 50 2000 50 0 0 false false false false).newVV
        0 (162/100) 6| := by
    norm_num [Lander.newVV, Lander.accelY, Lander.upActive]
  have h := C8_anomaly_clamp
    (Lander.mk 100 1000 1000 1000 50 2000 50 0 0 false false false false)
    0 (162/100) 6 3
  have ht := h.2.2.2 (Or.inr (Or.inr hb))
  exact ⟨ht.1, ht.2.2 hb, h.1.2, ht.1⟩

/-- C7: in the mass-aware lander every active thrust term is scaled by
`fullMass / mass`, a ratio at least 1 (for a craft whose mass is its dry
mass plus its fuel and does not exceed the full-tank mass); and for equal
thrust duration and command, the craft with less remaining fuel (hence
lower mass) changes its vertical velocity by strictly more — thrust
effectiveness is strictly monotone decreasing in remaining fuel.  The
comparison is stated away from the anomaly clamp, which would otherwise
zero a velocity beyond the 1000 sanity bound. -/
theorem C7_thrust_effectiveness (l1 l2 : Lander) (dt gravity mainThrust sideThrust : ℚ)
    (hdt : 0 < dt) (hT : 0 < mainThrust)
    (hup1 : l1.upThruster = true) (hup2 : l2.upThruster = true)
    (hdry : 0 < l1.dryMass) (hdrye : l2.dryMass = l1.dryMass)
    (hfull : l2.fullMass = l1.fullMass)
    (hm1 : l1.mass = l1.dryMass + l1.fuel) (hm2 : l2.mass = l2.dryMass + l2.fuel)
    (hf1 : 0 < l1.fuel) (hlt : l1.fuel < l2.fuel)
    (hcap : l2.mass ≤ l1.fullMass)
    (hb1 : |l1.newVV dt gravity mainThrust| ≤ 1000)
    (hb2 : |l2.newVV dt gravity mainThrust| ≤ 1000) :
    1 ≤ l1.fullMass / l1.mass ∧
    l1.accelY gravity mainThrust = gravity - mainThrust * (l1.fullMass / l1.mass) ∧
    (l1.update dt gravity mainThrust sideThrust).verticalVelocity - l1.verticalVelocity <
      (l2.update dt gravity mainThrust sideThrust).verticalVelocity - l2.verticalVelocity := by
  have hmass1 : 0 < l1.mass := by rw [hm1]; linarith
  have hmass2 : 0 < l2.mass := by rw [hm2, hdrye]; linarith
  have hmlt : l1.mass < l2.mass := by rw [hm1, hm2, hdrye]; linarith
  have hcap1 : l1.mass ≤ l1.fullMass := (hmlt.trans_le hcap).le
  have hFpos : 0 < l1.fullMass := hmass2.trans_le hcap
  refine ⟨(one_le_div hmass1).mpr hcap1, ?_, ?_⟩
  · simp [Lander.accelY, Lander.upActive, hup1, hf1]
  · rw [Lander.update_verticalVelocity_of_bounded l1 dt gravity mainThrust sideThrust hb1,
      Lander.update_verticalVelocity_of_bounded l2 dt gravity mainThrust sideThrust hb2]
    have hf2 : 0 < l2.fuel := hf1.trans hlt
    simp only [Lander.newVV, Lander.accelY, Lander.upActive, hup1, hup2, hf1, hf2,
      decide_eq_true_eq, if_pos, Bool.true_and, decide_true_eq_true]
    rw [hfull]
    have hr : l1.fullMass / l2.mass < l1.fullMass / l1.mass :=
      div_lt_div_of_pos_left hFpos hmass1 hmlt
    have hmul : mainThrust * (l1.fullMass / l2.mass) < mainThrust * (l1.fullMass / l1.mass) :=
      (mul_lt_mul_left hT).mpr hr
    nlinarith [hmul, hdt]

/-- Witness for C7 at a concrete input: two crafts with dry mass 1000 and
full-tank mass 2000, one holding 10 fuel and one holding 1000, both firing
the main engine for one second; the lighter craft's velocity change is
strictly larger. -/
theorem C7_thrust_effectiveness_witness :
    1 ≤ (Lander.mk 100 1000 2000 1010 100 0 50 0 10 true false false false).fullMass /
        (Lander.mk 100 1000 2000 1010 100 0 50 0 10 true false false false).mass ∧
    (Lander.mk 100 1000 2000 1010 100 0 50 0 10 true false false false).accelY 0 6 =
      0 - 6 * ((Lander.mk 100 1000 2000 1010 100 0 50 0 10 true false false false).fullMass /
        (Lander.mk 100 1000 2000 1010 100 0 50 0 10 true false false false).mass) ∧
    ((Lander.mk 100 1000 2000 1010 100 0 50 0 10 true false false false).update
        1 0 6 3).verticalVelocity -
      (Lander.mk 100 1000 2000 1010 100 0 50 0 10 true false false false).verticalVelocity <
    ((Lander.mk 100 1000 2000 2000 100 0 50 0 1000 true false false false).update
        1 0 6 3).verticalVelocity -
      (Lander.mk 100 1000 2000 2000 100 0 50 0 1000 true false false false).verticalVelocity :=
  C7_thrust_effectiveness
    (Lander.mk 100 1000 2000 1010 100 0 50 0 10 true false false false)
    (Lander.mk 100 1000 2000 2000 100 0 50 0 1000 true false false false)
    1 0 6 3 (by norm_num) (by norm_num) rfl rfl (by norm_num) rfl rfl
    (by norm_num) (by norm_num) (by norm_num) (by norm_num) (by norm_num)
    (by norm_num [Lander.newVV, Lander.accelY, Lander.upActive, abs_le])
    (by norm_num [Lander.newVV, Lander.accelY, Lander.upActive, abs_le])

lemma listGetD_set_eq (xs : List ℚ) (k : ℕ) (v : ℚ) (h : k < xs.length) :
    (xs.set k v).getD k 0 = v := by
  simp [List.getD_eq_getElem?_getD, List.getElem?_set_self', List.getElem?_eq_getElem, h]

lemma listGetD_set_ne (xs : List ℚ) (k j : ℕ) (v : ℚ) (hne : k ≠ j) :
    (xs.set k v).getD j 0 = xs.getD j 0 := by
  simp [List.getD_eq_getElem?_getD, List.getElem?_set_ne hne]

lemma safeIndexOf_bounds (s : ℚ) (h0 : 0 ≤ s) (h1 : s < 1) :
    1 ≤ safeIndexOf s ∧ safeIndexOf s ≤ 8 := by
  have hfl0 : (0 : ℤ) ≤ ⌊s * ((10 : ℚ) - 2)⌋ := Int.floor_nonneg.mpr (by nlinarith)
  have hfl8 : ⌊s * ((10 : ℚ) - 2)⌋ < 8 := Int.floor_lt.mpr (by push_cast; nlinarith)
  unfold safeIndexOf
  omega

/-- C4: for every sequence of random draws in `[0, 1)`, terrain generation
produces `numSegments + 1 = 11` height samples; the two endpoint samples of
the chosen safe segment are exactly equal, both set to the minimum of their
two original values and the cap 0.2; the chosen index lies in
`[1, numSegments − 2] = [1, 8]`; and the emitted safe-zone extent is
`[safeIndex · segmentWidth, (safeIndex + 1) · segmentWidth]` with
`segmentWidth = maxHorizontalRange / numSegments = 100 / 10`. -/
theorem C4_safe_zone (heightDraws : Fin 11 → ℚ) (safeDraw : ℚ)
    (hs0 : 0 ≤ safeDraw) (hs1 : safeDraw < 1) :
    (generateTerrain heightDraws safeDraw).1.length = 11 ∧
    1 ≤ safeIndexOf safeDraw ∧ safeIndexOf safeDraw ≤ 8 ∧
    (generateTerrain heightDraws safeDraw).1.getD (safeIndexOf safeDraw) 0 =
      (generateTerrain heightDraws safeDraw).1.getD (safeIndexOf safeDraw + 1) 0 ∧
    (generateTerrain heightDraws safeDraw).1.getD (safeIndexOf safeDraw) 0 =
      min (min ((origHeights heightDraws).getD (safeIndexOf safeDraw) 0)
        ((origHeights heightDraws).getD (safeIndexOf safeDraw + 1) 0)) (2/10) ∧
    (generateTerrain heightDraws safeDraw).2.startRange =
      (safeIndexOf safeDraw : ℚ) * (CONFIG_maxRange / 10) ∧
    (generateTerrain heightDraws safeDraw).2.endRange =
      ((safeIndexOf safeDraw : ℚ) + 1) * (CONFIG_maxRange / 10) := by
  obtain ⟨hk1, hk8⟩ := safeIndexOf_bounds safeDraw hs0 hs1
  have hlen0 : (origHeights heightDraws).length = 11 := by simp [origHeights]
  have hset1 : safeIndexOf safeDraw + 1 <
      ((origHeights heightDraws).set (safeIndexOf safeDraw)
        (min (min ((origHeights heightDraws).getD (safeIndexOf safeDraw) 0)
          ((origHeights heightDraws).getD (safeIndexOf safeDraw + 1) 0)) (2/10))).length := by
    rw [List.length_set, hlen0]; omega
  have hget2 :
      (generateTerrain heightDraws safeDraw).1.getD (safeIndexOf safeDraw + 1) 0 =
        min (min ((origHeights heightDraws).getD (safeIndexOf safeDraw) 0)
          ((origHeights heightDraws).getD (safeIndexOf safeDraw + 1) 0)) (2/10) := by
    simp only [generateTerrain]
    exact listGetD_set_eq _ _ _ hset1
  have hget1 :
      (generateTerrain heightDraws safeDraw).1.getD (safeIndexOf safeDraw) 0 =
        min (min ((origHeights heightDraws).getD (safeIndexOf safeDraw) 0)
          ((origHeights heightDraws).getD (safeIndexOf safeDraw + 1) 0)) (2/10) := by
    simp only [generateTerrain]
    rw [listGetD_set_ne _ _ _ _ (by omega)]
    exact listGetD_set_eq _ _ _ (by rw [hlen0]; omega)
  refine ⟨?_, hk1, hk8, ?_, hget1, ?_, ?_⟩
  · simp [generateTerrain, origHeights]
  · rw [hget1, hget2]
  · simp [generateTerrain]
  · simp [generateTerrain]

/-- Witness for C4 at a concrete input: all height draws 0.5 and safe draw
0 give eleven samples each 0.25, safe index 1, flattened pad height 0.2,
and safe-zone extent `[10, 20]`. -/
theorem C4_safe_zone_witness :
    (generateTerrain (fun _ => 1/2) 0).1.length = 11 ∧
    safeIndexOf 0 = 1 ∧
    (generateTerrain (fun _ => 1/2) 0).1.getD 1 0 =
      (generateTerrain (fun _ => 1/2) 0).1.getD 2 0 ∧
    (generateTerrain (fun _ => 1/2) 0).1.getD 1 0 = 1/5 ∧
    (generateTerrain (fun _ => 1/2) 0).2.startRange = 10 ∧
    (generateTerrain (fun _ => 1/2) 0).2.endRange = 20 := by
  have hk : safeIndexOf 0 = 1 := by norm_num [safeIndexOf]
  obtain ⟨hlen, -, -, heq, hval, hstart, hend⟩ :=
    C4_safe_zone (fun _ => 1/2) 0 (by norm_num) (by norm_num)
  rw [hk] at heq hval hstart hend
  have ho1 : (origHeights fun _ => (1:ℚ)/2).getD 1 0 = 1/4 := by
    rw [origHeights, List.getD_eq_getElem?_getD,
      List.getElem?_eq_getElem (by simp), List.getElem_ofFn]
    norm_num
  have ho2 : (origHeights fun _ => (1:ℚ)/2).getD (1 + 1) 0 = 1/4 := by
    rw [origHeights, List.getD_eq_getElem?_getD,
      List.getElem?_eq_getElem (by simp), List.getElem_ofFn]
    norm_num
  refine ⟨hlen, hk, heq, ?_, ?_, ?_⟩
  · rw [hval, ho1, ho2]
    norm_num [min_def]
  · rw [hstart]; norm_num [CONFIG_maxRange]
  · rw [hend]; norm_num [CONFIG_maxRange]

/-- C6: once terrain has been generated (at least two height samples, as
every generated profile has), the sampler's segment index
`min(floor(x / segmentWidth), numSegments − 1)` lies in
`[0, numSegments − 1]` for every `x ∈ [0, viewportWidth]`, an `x` exactly
at the right edge uses the last segment, both interpolation endpoints are
real samples of the list, and the result is the linear interpolation of
that segment's endpoint heights mapped to an inverted pixel Y — a value of
ℚ, hence finite; on an empty terrain list the sampler returns the full
viewport height as a sentinel. -/
theorem C6_sampler_index (pts : List ℚ) (w h x : ℚ)
    (hlen : 2 ≤ pts.length) (hw : 0 < w) (hx0 : 0 ≤ x) (_hxw : x ≤ w) :
    (∀ y : ℚ, getTerrainYPixel [] w h y = h) ∧
    0 ≤ segIndexOf pts w x ∧
    segIndexOf pts w x ≤ (pts.length : ℤ) - 2 ∧
    (x = w → segIndexOf pts w x = (pts.length : ℤ) - 2) ∧
    (segIndexOf pts w x).toNat + 1 < pts.length ∧
    getTerrainYPixel pts w h x =
      h - (pts.getD (segIndexOf pts w x).toNat 0 * (1 - segTOf pts w x) +
        pts.getD ((segIndexOf pts w x).toNat + 1) 0 * segTOf pts w x) * h := by
  have hn : (2 : ℤ) ≤ (pts.length : ℤ) := by exact_mod_cast hlen
  have hden : (0 : ℚ) < (((pts.length : ℤ) - 1 : ℤ) : ℚ) := by
    have : (1 : ℤ) ≤ (pts.length : ℤ) - 1 := by omega
    exact_mod_cast lt_of_lt_of_le zero_lt_one (by exact_mod_cast this)
  have hsw : 0 < segWidthOf pts w := div_pos hw hden
  have hge : 0 ≤ segIndexOf pts w x :=
    le_min (Int.floor_nonneg.mpr (div_nonneg hx0 hsw.le)) (by omega)
  have hle : segIndexOf pts w x ≤ (pts.length : ℤ) - 2 := min_le_right _ _
  refine ⟨fun y => by simp [getTerrainYPixel], hge, hle, ?_, by omega, ?_⟩
  · intro hxe
    have hxw' : w / segWidthOf pts w = (((pts.length : ℤ) - 1 : ℤ) : ℚ) := by
      rw [segWidthOf, div_div_eq_mul_div, mul_comm, mul_div_assoc, div_self hw.ne',
        mul_one]
    rw [segIndexOf, hxe, hxw', Int.floor_intCast]
    omega
  · have hne : ¬ pts.length = 0 := by omega
    simp only [getTerrainYPixel, segIndexOf, segTOf, segWidthOf, hne, if_false]
    have harith : (pts.length : ℤ) - 1 - 1 = (pts.length : ℤ) - 2 := by ring
    rw [harith]

/-- Witness for C6 at a concrete input: three samples over a 200-pixel
canvas, sampled exactly at the right edge — the clamped index is 1 (the
last segment, not past the array) and the interpolated inverted pixel Y is
70. -/
theorem C6_sampler_index_witness :
    segIndexOf [1/10, 2/10, 3/10] 200 200 = 1 ∧
    (segIndexOf [1/10, 2/10, 3/10] 200 200).toNat + 1 <
      ([1/10, 2/10, 3/10] : List ℚ).length ∧
    getTerrainYPixel [1/10, 2/10, 3/10] 200 100 200 = 70 ∧
    getTerrainYPixel [] 200 100 5 = 100 := by
  obtain ⟨hempty, -, hle, hedge, hidx, heval⟩ :=
    C6_sampler_index [1/10, 2/10, 3/10] 200 100 200
      (by norm_num) (by norm_num) (by norm_num) (by norm_num)
  have hi : segIndexOf [1/10, 2/10, 3/10] 200 200 = 1 := by
    have := hedge rfl
    simpa using this
  have ht : segTOf [1/10, 2/10, 3/10] 200 200 = 1 := by
    rw [segTOf, segWidthOf, hi]
    norm_num
  refine ⟨hi, hidx, ?_, hempty 5⟩
  rw [heval, hi, ht]
  norm_num [List.getD]

/-- C1: when a tick detects touchdown, the outcome is Success (`crashed =
false`, message "Successful landing!") if and only if the absolute impact
vertical velocity is at most 2.0, the absolute impact horizontal velocity
is at most 2.0, and the craft's horizontal position lies within
`[safeZone.startRange, safeZone.endRange]` inclusive — the impact
velocities being those of the advanced lander before they are zeroed; on
Success the level counter increases by exactly 1, and on Crash it is
unchanged. -/
theorem C1_outcome_classification (g : Game) (dt : ℚ)
    (hs : g.gameStarted = true) (ho : g.gameOver = false) (ht : g.touchdown dt) :
    ((g.updatePhysics dt).crashed = false ↔
      |(g.postLander dt).verticalVelocity| ≤ 2 ∧
      |(g.postLander dt).horizontalVelocity| ≤ 2 ∧
      g.safeZone.startRange ≤ (g.postLander dt).horizontalPosition ∧
      (g.postLander dt).horizontalPosition ≤ g.safeZone.endRange) ∧
    ((g.updatePhysics dt).message = "Successful landing!" ↔
      (g.updatePhysics dt).crashed = false) ∧
    ((g.updatePhysics dt).crashed = false → (g.updatePhysics dt).level = g.level + 1) ∧
    ((g.updatePhysics dt).crashed = true → (g.updatePhysics dt).level = g.level) := by
  have hguard : ¬ (g.gameStarted = false ∨ g.gameOver = true) := by simp [hs, ho]
  simp only [Game.updatePhysics]
  rw [if_neg hguard, if_pos ht]
  split_ifs with hcond
  · simp [hcond]
  · have hcr : ("Crash!" : String) ≠ "Successful landing!" := by decide
    simp [hcond, hcr]

/-- Witness for C1 at a concrete input: a craft descending at exactly
2.0 units/s with zero horizontal velocity, touching down inside the safe
zone `[40, 60]`, is classified as a successful landing and the level
counter advances from 1 to 2. -/
theorem C1_outcome_classification_witness :
    ((Game.mk 1 (162/100) false "" true false [1/5, 1/5, 1/5] (SafeZone.mk 40 60 (1/5))
        100 100 (Lander.mk 100 1000 1000 1000 10 2 50 0 0 false false false false)).updatePhysics
      0).crashed = false ∧
    ((Game.mk 1 (162/100) false "" true false [1/5, 1/5, 1/5] (SafeZone.mk 40 60 (1/5))
        100 100 (Lander.mk 100 1000 1000 1000 10 2 50 0 0 false false false false)).updatePhysics
      0).level = 2 ∧
    ((Game.mk 1 (162/100) false "" true false [1/5, 1/5, 1/5] (SafeZone.mk 40 60 (1/5))
        100 100 (Lander.mk 100 1000 1000 1000 10 2 50 0 0 false false false false)).updatePhysics
      0).message = "Successful landing!" := by
  have hpost :
      (Game.mk 1 (162/100) false "" true false [1/5, 1/5, 1/5] (SafeZone.mk 40 60 (1/5))
        100 100 (Lander.mk 100 1000 1000 1000 10 2 50 0 0 false false false false)).postLander
          0 =
        Lander.mk 100 1000 1000 1000 10 2 50 0 0 false false false false := by
    norm_num [Game.postLander, Lander.update, Lander.thrusterCount, Lander.upActive,
      Lander.leftActive, Lander.rightActive, Lander.newVV, Lander.newHV, Lander.rawHPos,
      Lander.rawAlt, Lander.accelY, Lander.accelX, LANDER_CONFIG_maxAltitude, max_def,
      min_def, abs_le]
  have ht :
      (Game.mk 1 (162/100) false "" true false [1/5, 1/5, 1/5] (SafeZone.mk 40 60 (1/5))
        100 100 (Lander.mk 100 1000 1000 1000 10 2 50 0 0 false false false false)).touchdown
        0 := by
    rw [Game.touchdown, Game.terrainYAt, Game.yPix, Game.xPix, hpost]
    norm_num [getTerrainYPixel, List.getD, LANDER_CONFIG_maxAltitude, CONFIG_maxRange,
      Int.floor_one]
  have h := C1_outcome_classification
    (Game.mk 1 (162/100) false "" true false [1/5, 1/5, 1/5] (SafeZone.mk 40 60 (1/5))
      100 100 (Lander.mk 100 1000 1000 1000 10 2 50 0 0 false false false false))
    0 rfl rfl ht
  have hconds := h.1.mpr (by rw [hpost]; norm_num)
  exact ⟨hconds, h.2.2.1 hconds, h.2.1.mpr hconds⟩

/-- C5: when a tick finds the craft's pixel Y at or past the sampled
terrain Y (the test uses `≥`, so exact equality counts as landed), the
attempt ends (`gameOver = true`), the altitude is snapped to the exact
surface altitude implied by the terrain sample (not forced to zero), both
stored velocity components are zeroed afterwards, and the outcome is
classified from the impact velocities captured before the zeroing. -/
theorem C5_touchdown_snap (g : Game) (dt : ℚ)
    (hs : g.gameStarted = true) (ho : g.gameOver = false) (ht : g.touchdown dt) :
    (g.updatePhysics dt).gameOver = true ∧
    (g.updatePhysics dt).lander.altitude =
      (g.canvasHeight - g.terrainYAt dt) / g.canvasHeight * LANDER_CONFIG_maxAltitude ∧
    (g.updatePhysics dt).lander.verticalVelocity = 0 ∧
    (g.updatePhysics dt).lander.horizontalVelocity = 0 ∧
    (|(g.postLander dt).verticalVelocity| ≤ 2 → |(g.postLander dt).horizontalVelocity| ≤ 2 →
      g.safeZone.startRange ≤ (g.postLander dt).horizontalPosition →
      (g.postLander dt).horizontalPosition ≤ g.safeZone.endRange →
      (g.updatePhysics dt).message = "Successful landing!") := by
  have hguard : ¬ (g.gameStarted = false ∨ g.gameOver = true) := by simp [hs, ho]
  simp only [Game.updatePhysics]
  rw [if_neg hguard, if_pos ht]
  split_ifs with hcond
  · simp
  · refine ⟨by simp, by simp, by simp, by simp, ?_⟩
    intro h1 h2 h3 h4
    exact absurd ⟨h1, h2, h3, h4⟩ hcond

/-- Witness for C5 at a concrete input: a craft whose pixel Y equals the
sampled terrain Y exactly (altitude 20 over a flat 0.2 terrain on a
100-pixel canvas) counts as landed: the attempt ends, the altitude is
snapped to 20 and both velocities are zeroed. -/
theorem C5_touchdown_snap_witness :
    ((Game.mk 1 (162/100) false "" true false [1/5, 1/5, 1/5] (SafeZone.mk 40 60 (1/5))
        100 100 (Lander.mk 100 1000 1000 1000 20 2 50 0 0 false false false false)).updatePhysics
      0).gameOver = true ∧
    ((Game.mk 1 (162/100) false "" true false [1/5, 1/5, 1/5] (SafeZone.mk 40 60 (1/5))
        100 100 (Lander.mk 100 1000 1000 1000 20 2 50 0 0 false false false false)).updatePhysics
      0).lander.altitude = 20 ∧
    ((Game.mk 1 (162/100) false "" true false [1/5, 1/5, 1/5] (SafeZone.mk 40 60 (1/5))
        100 100 (Lander.mk 100 1000 1000 1000 20 2 50 0 0 false false false false)).updatePhysics
      0).lander.verticalVelocity = 0 ∧
    ((Game.mk 1 (162/100) false "" true false [1/5, 1/5, 1/5] (SafeZone.mk 40 60 (1/5))
        100 100 (Lander.mk 100 1000 1000 1000 20 2 50 0 0 false false false false)).updatePhysics
      0).lander.horizontalVelocity = 0 := by
  have hpost :
      (Game.mk 1 (162/100) false "" true false [1/5, 1/5, 1/5] (SafeZone.mk 40 60 (1/5))
        100 100 (Lander.mk 100 1000 1000 1000 20 2 50 0 0 false false false false)).postLander
          0 =
        Lander.mk 100 1000 1000 1000 20 2 50 0 0 false false false false := by
    norm_num [Game.postLander, Lander.update, Lander.thrusterCount, Lander.upActive,
      Lander.leftActive, Lander.rightActive, Lander.newVV, Lander.newHV, Lander.rawHPos,
      Lander.rawAlt, Lander.accelY, Lander.accelX, LANDER_CONFIG_maxAltitude, max_def,
      min_def, abs_le]
  have hy :
      (Game.mk 1 (162/100) false "" true false [1/5, 1/5, 1/5] (SafeZone.mk 40 60 (1/5))
        100 100 (Lander.mk 100 1000 1000 1000 20 2 50 0 0 false false false false)).terrainYAt
          0 = 80 := by
    rw [Game.terrainYAt, Game.xPix, hpost]
    norm_num [getTerrainYPixel, List.getD, CONFIG_maxRange, Int.floor_one]
  have ht :
      (Game.mk 1 (162/100) false "" true false [1/5, 1/5, 1/5] (SafeZone.mk 40 60 (1/5))
        100 100 (Lander.mk 100 1000 1000 1000 20 2 50 0 0 false false false false)).touchdown
        0 := by
    rw [Game.touchdown, hy, Game.yPix, hpost]
    norm_num [LANDER_CONFIG_maxAltitude]
  have h := C5_touchdown_snap
    (Game.mk 1 (162/100) false "" true false [1/5, 1/5, 1/5] (SafeZone.mk 40 60 (1/5))
      100 100 (Lander.mk 100 1000 1000 1000 20 2 50 0 0 false false false false))
    0 rfl rfl ht
  refine ⟨h.1, ?_, h.2.2.1, h.2.2.2.1⟩
  rw [h.2.1, hy]
  norm_num [LANDER_CONFIG_maxAltitude]

lemma altCheck_iff (a : JSNum) :
    (a.lt (JSNum.fin 0) || (JSNum.fin LANDER_CONFIG_maxAltitude).lt a || !a.isFinite) = true ↔
      ¬ a.finiteIn 0 LANDER_CONFIG_maxAltitude := by
  cases a <;>
    simp [JSNum.lt, JSNum.isFinite, JSNum.finiteIn, LANDER_CONFIG_maxAltitude]
  rename_i q
  rw [imp_iff_not_or, not_le]

lemma velCheck_iff (v : JSNum) :
    (!v.isFinite || (JSNum.fin 50).lt v.jsAbs) = true ↔ ¬ v.finiteIn (-50) 50 := by
  cases v <;>
    simp [JSNum.lt, JSNum.isFinite, JSNum.jsAbs, JSNum.finiteIn]
  rename_i q
  rw [lt_abs, lt_neg, imp_iff_not_or, not_le]
  tauto

/-- C9: for every request to the validation endpoint, a token differing
from the expected HMAC-SHA256 signature yields HTTP 400 with reason
"invalid token" regardless of the result contents; with a matching token
and a well-formed result, an altitude that is not a finite number in
`[0, maxAltitude]` (for example −1) is rejected with reason
"invalid altitude", a vertical velocity that is not finite or exceeds
magnitude 50 is rejected with the descriptive reason "invalid velocity",
and a result passing all checks yields HTTP 200 `{ok: true}`. -/
theorem C9_validation_endpoint (expected : String) (body : ValidateBody) :
    (body.token ≠ some expected →
      validateHandler expected body =
        ServerResponse.mk 400 false (some "invalid token")) ∧
    (∀ a v : JSNum, body.token = some expected →
      body.result = some (ResultObj.mk (JSVal.num a) (JSVal.num v)) →
      (¬ a.finiteIn 0 LANDER_CONFIG_maxAltitude →
        validateHandler expected body =
          ServerResponse.mk 400 false (some "invalid altitude")) ∧
      (a.finiteIn 0 LANDER_CONFIG_maxAltitude → ¬ v.finiteIn (-50) 50 →
        validateHandler expected body =
          ServerResponse.mk 400 false (some "invalid velocity")) ∧
      (a.finiteIn 0 LANDER_CONFIG_maxAltitude → v.finiteIn (-50) 50 →
        validateHandler expected body = ServerResponse.mk 200 true none)) := by
  constructor
  · intro h
    simp [validateHandler, h]
  · intro a v htok hres
    have hno : ¬ body.token ≠ some expected := by simp [htok]
    refine ⟨?_, ?_, ?_⟩
    · intro hA
      rw [validateHandler, if_neg hno, hres]
      simp only
      rw [if_pos ((altCheck_iff a).mpr hA)]
    · intro hA hV
      rw [validateHandler, if_neg hno, hres]
      simp only
      rw [if_neg (fun hc => (altCheck_iff a).mp hc hA),
        if_pos ((velCheck_iff v).mpr hV)]
    · intro hA hV
      rw [validateHandler, if_neg hno, hres]
      simp only
      rw [if_neg (fun hc => (altCheck_iff a).mp hc hA),
        if_neg (fun hc => (velCheck_iff v).mp hc hV)]

/-- Witness for C9 at a concrete input: with the matching token, a result
reporting altitude −1 is rejected with reason "invalid altitude". -/
theorem C9_validation_endpoint_witness :
    validateHandler "tok"
      (ValidateBody.mk
        (some (ResultObj.mk (JSVal.num (JSNum.fin (-1))) (JSVal.num (JSNum.fin 0))))
        (some "tok")) =
      ServerResponse.mk 400 false (some "invalid altitude") :=
  ((C9_validation_endpoint "tok"
      (ValidateBody.mk
        (some (ResultObj.mk (JSVal.num (JSNum.fin (-1))) (JSVal.num (JSNum.fin 0))))
        (some "tok"))).2
    (JSNum.fin (-1)) (JSNum.fin 0) rfl rfl).1
    (by norm_num [JSNum.finiteIn, LANDER_CONFIG_maxAltitude])

/-- C10: a request whose token matches but whose body lacks a result
object, or whose `result.altitude` or `result.verticalVelocity` is not of
number type, is answered with HTTP 400 and reason "malformed result"; the
shape check runs before the range checks, so such a request is never
reported as "invalid altitude" or "invalid velocity". -/
theorem C10_malformed_shape (expected : String) (body : ValidateBody)
    (htok : body.token = some expected)
    (hshape : body.result = none ∨
      ∃ r : ResultObj, body.result = some r ∧
        ((∀ n : JSNum, r.altitude ≠ JSVal.num n) ∨
          ∀ n : JSNum, r.verticalVelocity ≠ JSVal.num n)) :
    validateHandler expected body =
      ServerResponse.mk 400 false (some "malformed result") ∧
    (validateHandler expected body).reason ≠ some "invalid altitude" ∧
    (validateHandler expected body).reason ≠ some "invalid velocity" := by
  have hno : ¬ body.token ≠ some expected := by simp [htok]
  have hmain : validateHandler expected body =
      ServerResponse.mk 400 false (some "malformed result") := by
    rcases hshape with hnone | ⟨r, hsome, hbad⟩
    · rw [validateHandler, if_neg hno, hnone]
    · rw [validateHandler, if_neg hno, hsome]
      obtain ⟨ra, rv⟩ := r
      rcases hbad with hb | hb
      · cases ra with
        | num n => exact (hb n rfl).elim
        | nonNumber => cases rv <;> rfl
      · cases rv with
        | num n => exact (hb n rfl).elim
        | nonNumber => cases ra <;> rfl
  exact ⟨hmain, by rw [hmain]; decide, by rw [hmain]; decide⟩

/-- Witness for C10 at a concrete input: with the matching token, a result
whose altitude field is a string is answered "malformed result", not an
altitude or velocity range error. -/
theorem C10_malformed_shape_witness :
    validateHandler "tok"
      (ValidateBody.mk (some (ResultObj.mk JSVal.nonNumber (JSVal.num (JSNum.fin 0))))
        (some "tok")) =
      ServerResponse.mk 400 false (some "malformed result") ∧
    (validateHandler "tok"
      (ValidateBody.mk (some (ResultObj.mk JSVal.nonNumber (JSVal.num (JSNum.fin 0))))
        (some "tok"))).reason ≠ some "invalid altitude" ∧
    (validateHandler "tok"
      (ValidateBody.mk (some (ResultObj.mk JSVal.nonNumber (JSVal.num (JSNum.fin 0))))
        (some "tok"))).reason ≠ some "invalid velocity" :=
  C10_malformed_shape "tok"
    (ValidateBody.mk (some (ResultObj.mk JSVal.nonNumber (JSVal.num (JSNum.fin 0))))
      (some "tok"))
    rfl
    (Or.inr ⟨ResultObj.mk JSVal.nonNumber (JSVal.num (JSNum.fin 0)), rfl,
      Or.inl fun _ h => JSVal.noConfusion h⟩)
